import Mathlib

/-!
Verification of the remote session client of the glafarsa2/cli repository.

The development shallowly embeds the Go sources:

* `src/pkg/liveshare/ports.go` — the port-sharing protocol
  (`Session.startSharing`, `Session.WaitForPortNotification`);
* the liveshare RPC handler (`rpcHandler.registerEventHandler`,
  `rpcHandler.Handle`);
* `src/internal/codespaces/states.go` — the connection lifecycle
  controller (`connectionReady`, `ConnectToLiveshare`) and the remote
  state poller (`PollPostCreateStates`, `getPostCreateOutput`).

Concurrent code is linearised: the stream of events a blocked wait can
observe (context cancellation, inbound frames, ticker ticks, channel
closure) is modelled as an explicit list processed in arrival order, and
each Go function becomes a total function from that list to an outcome.
An outcome constructor `waiting` / `blocked` / `running` records that the
Go code is still suspended after the observed prefix of events.
-/

/-- Decidable equality for Except, needed to decide equalities between
concrete session events in witnesses. -/
instance {ε α : Type} [DecidableEq ε] [DecidableEq α] : DecidableEq (Except ε α) :=
  fun x y =>
    match x, y with
    | Except.error a, Except.error b =>
        if h : a = b then isTrue (by rw [h])
        else isFalse (by intro hc; cases hc; exact h rfl)
    | Except.error _, Except.ok _ => isFalse (by intro hc; cases hc)
    | Except.ok _, Except.error _ => isFalse (by intro hc; cases hc)
    | Except.ok a, Except.ok b =>
        if h : a = b then isTrue (by rw [h])
        else isFalse (by intro hc; cases hc; exact h rfl)

namespace liveshare

/-- Go type Port of ports.go: a port exposed by the container, as returned
by the serverSharing RPC methods. -/
structure Port where
  sourcePort : Int
  destinationPort : Int
  sessionName : String
  streamName : String
  streamCondition : String
  browseUrl : String
  isPublic : Bool
  isTCPServerConnectionEstablished : Bool
  hasTLSHandshakePassed : Bool
  privacy : String
deriving DecidableEq, Repr

/-- Go type PortChangeKind: a string enumeration. -/
abbrev PortChangeKind := String

/-- Constant PortChangeKindStart of ports.go. -/
def PortChangeKindStart : PortChangeKind := "start"

/-- Constant PortChangeKindUpdate of ports.go. -/
def PortChangeKindUpdate : PortChangeKind := "update"

/-- Go type PortUpdate of ports.go: the payload of a sharingSucceeded or
sharingFailed notification frame. -/
structure PortUpdate where
  port : Int
  changeKind : PortChangeKind
  errorDetail : String
  statusCode : Int
deriving DecidableEq, Repr

/-- Go type PortNotification of ports.go: a PortUpdate together with the
Success flag the handler sets from the method the frame arrived on
(sharingSucceeded ⇒ true, sharingFailed ⇒ false). -/
structure PortNotification extends PortUpdate where
  success : Bool
deriving DecidableEq, Repr

/-- The channelID pair built by startSharing from the RPC response:
the streamName and streamCondition of the returned Port record. The Go
struct is constructed positionally; the field names chosen here follow
the order of that construction. -/
structure channelID where
  name : String
  condition : String
deriving DecidableEq, Repr

/-- One event observable by a WaitForPortNotification loop, in arrival
order: cancellation of the context, or an inbound frame on one of the two
registered methods. A frame carries the Success flag derived from its
method name and the result of unmarshalling its params into a PortUpdate
(an unmarshal failure is sent to the errc channel of the wait). -/
inductive SessionEvent where
  | ctxDone : SessionEvent
  | frame (success : Bool) (parsed : Except String PortUpdate) : SessionEvent
deriving DecidableEq, Repr

/-- The outcome of a WaitForPortNotification loop over an observed prefix
of events: a matching notification returned, cancellation, an unmarshal
error, or still blocked in the select. -/
inductive WaitOutcome where
  | ok (n : PortNotification) : WaitOutcome
  | canceled : WaitOutcome
  | unmarshalError (msg : String) : WaitOutcome
  | waiting : WaitOutcome
deriving DecidableEq, Repr

/-- Session.WaitForPortNotification of ports.go, linearised over the list
of events its select loop observes. The loop returns the first parsed
notification whose Port equals the requested port and whose ChangeKind
equals the requested kind; a non-matching notification is dropped and the
loop continues; ctx.Done and an unmarshal failure end the wait with an
error. An exhausted event list leaves the wait blocked. -/
def WaitForPortNotification (port : Int) (notifType : PortChangeKind) :
    List SessionEvent → WaitOutcome
  | [] => WaitOutcome.waiting
  | SessionEvent.ctxDone :: _ => WaitOutcome.canceled
  | SessionEvent.frame _ (Except.error e) :: _ =>
      WaitOutcome.unmarshalError ("error unmarshaling notification: " ++ e)
  | SessionEvent.frame s (Except.ok u) :: rest =>
      if u.port == port && u.changeKind == notifType then
        WaitOutcome.ok { toPortUpdate := u, success := s }
      else
        WaitForPortNotification port notifType rest

/-- The outcome of startSharing: a channel identifier, an error message,
or blocked (the RPC call returned but neither cancellation nor a matching
notification ever arrived). -/
inductive StartSharingOutcome where
  | ok (id : channelID) : StartSharingOutcome
  | err (msg : String) : StartSharingOutcome
  | blocked : StartSharingOutcome
deriving DecidableEq, Repr

/-- Session.startSharing of ports.go. The RPC call
serverSharing.startSharing is abstracted by its result `rpcResult`; the
concurrent goroutine waiting for a start notification is linearised over
`events`. If the RPC call errors the call fails with that error. If the
wait is cancelled, the outer select returns the context error. If the
wait returns a notification whose Success flag is false, the call fails
with a message built from the ErrorDetail of the notification; otherwise
it returns the channelID built from the streamName and streamCondition of
the RPC response. -/
def startSharing (rpcResult : Except String Port) (events : List SessionEvent)
    (sessionName : String) (port : Int) : StartSharingOutcome :=
  match rpcResult with
  | Except.error e => StartSharingOutcome.err e
  | Except.ok response =>
    match WaitForPortNotification port PortChangeKindStart events with
    | WaitOutcome.waiting => StartSharingOutcome.blocked
    | WaitOutcome.canceled => StartSharingOutcome.err "context canceled"
    | WaitOutcome.unmarshalError m =>
        StartSharingOutcome.err ("error while waiting for port notification: " ++ m)
    | WaitOutcome.ok n =>
        if n.success then
          StartSharingOutcome.ok
            { name := response.streamName, condition := response.streamCondition }
        else
          StartSharingOutcome.err
            ("error while starting port sharing: " ++ n.errorDetail)

/-- True of an event that is a frame whose params unmarshalled into a
PortUpdate: neither a cancellation nor an unmarshal failure. Used to
state properties of waits over well-formed event streams. -/
def isParsedFrame : SessionEvent → Bool
  | SessionEvent.frame _ (Except.ok _) => true
  | _ => false

/-- The first frame of the event list that parses to a PortUpdate matching
the requested port and kind, as the PortNotification the handler would
build from it. A helper for stating which notification a wait resolves
on; cancellation and unmarshal failures are skipped, so this describes
the wait only on event lists free of them. -/
def firstPortNotification (port : Int) (notifType : PortChangeKind) :
    List SessionEvent → Option PortNotification
  | [] => none
  | SessionEvent.ctxDone :: rest => firstPortNotification port notifType rest
  | SessionEvent.frame _ (Except.error _) :: rest =>
      firstPortNotification port notifType rest
  | SessionEvent.frame s (Except.ok u) :: rest =>
      if u.port == port && u.changeKind == notifType then
        some { toPortUpdate := u, success := s }
      else
        firstPortNotification port notifType rest

/-- Fixture: a start notification for the unrelated port 80. -/
def sampleUnrelatedUpdate : PortUpdate :=
  { port := 80, changeKind := "start", errorDetail := "", statusCode := 0 }

/-- Fixture: a start notification for port 2222 carrying no error. -/
def sampleStartUpdate : PortUpdate :=
  { port := 2222, changeKind := "start", errorDetail := "", statusCode := 0 }

/-- Fixture: a notification for port 2222 with changeKind update. -/
def sampleKindUpdate : PortUpdate :=
  { port := 2222, changeKind := "update", errorDetail := "", statusCode := 0 }

/-- Fixture: a failure notification payload for port 2222 with error
detail "x". -/
def sampleFailedUpdate : PortUpdate :=
  { port := 2222, changeKind := "start", errorDetail := "x", statusCode := 0 }

/-- Fixture: the Port record a fake relay returns for startSharing. -/
def samplePort : Port :=
  { sourcePort := 2222, destinationPort := 0, sessionName := "sshd",
    streamName := "s", streamCondition := "c", browseUrl := "",
    isPublic := false, isTCPServerConnectionEstablished := false,
    hasTLSHandshakePassed := false, privacy := "" }

/-- An inbound jsonrpc2 request frame, reduced to the fields the handler
reads: the method name that routes it and an opaque params payload. -/
structure Request where
  method : String
  params : String
deriving DecidableEq, Repr

/-- State of a rpcHandler: the eventHandlers map from method name to the
slice of registered listener channels, modelled as an association list
(insertion order, no repeated keys when built by the operations below),
each channel identified by a number drawn from the fresh counter
nextChan. The Go struct holds only this map; a request is never stored
in it. -/
structure RpcState where
  eventHandlers : List (String × List Nat)
  nextChan : Nat
deriving DecidableEq, Repr

/-- Go map read m[k] with ok flag, over the association list model. -/
def mapLookup {α : Type} : List (String × α) → String → Option α
  | [], _ => none
  | (k, v) :: rest, key => if k = key then some v else mapLookup rest key

/-- Go map write m[k] = v over the association list model: replaces the
value at the key, or appends the binding when the key is absent. -/
def mapSet {α : Type} : List (String × α) → String → α → List (String × α)
  | [], key, v => [(key, v)]
  | (k, w) :: rest, key, v =>
      if k = key then (key, v) :: rest else (k, w) :: mapSet rest key v

/-- newRPCHandler: an empty eventHandlers map. -/
def newRPCHandler : RpcState := { eventHandlers := [], nextChan := 0 }

/-- rpcHandler.registerEventHandler: allocates a fresh channel and appends
it to the slice registered for the method (a singleton slice when the
method had no entry). Returns the channel and the new state. -/
def registerEventHandler (st : RpcState) (eventMethod : String) : Nat × RpcState :=
  let ch := st.nextChan
  match mapLookup st.eventHandlers eventMethod with
  | none =>
      (ch, { eventHandlers := mapSet st.eventHandlers eventMethod [ch],
             nextChan := st.nextChan + 1 })
  | some hs =>
      (ch, { eventHandlers := mapSet st.eventHandlers eventMethod (hs ++ [ch]),
             nextChan := st.nextChan + 1 })

/-- rpcHandler.Handle: when the method of the request has an entry in the
eventHandlers map, the request is sent to each registered channel in
order — each send races ctx.Done in a select, and `cancelled c` records
that the send to channel c lost that race and was skipped (the loop then
continues with the next channel) — and afterwards the entry for the
method is set to the empty slice, whether or not every send was
delivered. When the method has no entry, nothing happens at all: the
request is dropped. Returns the list of (channel, request) deliveries
and the new state. -/
def Handle (cancelled : Nat → Bool) (st : RpcState) (req : Request) :
    List (Nat × Request) × RpcState :=
  match mapLookup st.eventHandlers req.method with
  | some handlers =>
      (handlers.filterMap
         (fun c => if cancelled c then none else some (c, req)),
       { st with eventHandlers := mapSet st.eventHandlers req.method [] })
  | none => ([], st)

/-- Every channel recorded in the eventHandlers map was allocated by the
fresh counter: it is below nextChan. Holds for every state reachable
from newRPCHandler. -/
def chanBound (st : RpcState) : Prop :=
  ∀ e ∈ st.eventHandlers, ∀ c ∈ e.2, c < st.nextChan

instance (st : RpcState) : Decidable (chanBound st) := by
  unfold chanBound; infer_instance

/-- Fixture: a handler state with two listeners registered for the
sharingSucceeded method. -/
def sampleHandlerState : RpcState :=
  { eventHandlers := [("serverSharing.sharingSucceeded", [0, 1])], nextChan := 2 }

/-- Fixture: an inbound sharingSucceeded notification frame. -/
def sampleRequest : Request :=
  { method := "serverSharing.sharingSucceeded", params := "payload" }

end liveshare

namespace codespaces

/-- The connection descriptor of api.Codespace.Environment.Connection, as
read by connectionReady and ConnectToLiveshare of states.go. -/
structure CodespaceConnection where
  sessionID : String
  sessionToken : String
  relayEndpoint : String
  relaySAS : String
deriving DecidableEq, Repr

/-- The environment of an api.Codespace: its reported state and the
connection descriptor. -/
structure CodespaceEnvironment where
  state : String
  connection : CodespaceConnection
deriving DecidableEq, Repr

/-- An api.Codespace, reduced to the fields states.go reads. -/
structure Codespace where
  name : String
  environment : CodespaceEnvironment
deriving DecidableEq, Repr

/-- Modelled from the spec: the constant api.CodespaceEnvironmentStateAvailable
is declared in the api package, which is not among the repository files;
the spec states the workspace state must equal "available". -/
def CodespaceEnvironmentStateAvailable : String := "available"

/-- connectionReady of states.go: all four connection-descriptor fields
are non-empty and the environment state is available. -/
def connectionReady (codespace : Codespace) : Bool :=
  (codespace.environment.connection.sessionID != "") &&
  (codespace.environment.connection.sessionToken != "") &&
  (codespace.environment.connection.relayEndpoint != "") &&
  (codespace.environment.connection.relaySAS != "") &&
  (codespace.environment.state == CodespaceEnvironmentStateAvailable)

/-- The api.API operations ConnectToLiveshare performs, abstracted by
their results: StartCodespace, and GetCodespace at each retry count. -/
structure APIClient where
  startCodespace : Except String Unit
  getCodespace : Nat → Except String Codespace

/-- One observable action of ConnectToLiveshare: the start-workspace
request, a 1-second sleep of the poll loop, or a GetCodespace re-fetch at
a given value of the retries counter. -/
inductive ConnectEvent where
  | start : ConnectEvent
  | sleep : ConnectEvent
  | fetch (retries : Nat) : ConnectEvent
deriving DecidableEq, Repr

/-- The poll loop of ConnectToLiveshare, states.go. The loop counts
retries upward from 0 and exits with a timeout error at retries = 30;
it is modelled by structural recursion on remaining = 30 - retries, with
the retries counter recovered as 30 - remaining. Each iteration first
tests connectionReady (the loop condition), then sleeps 1 second when
retries > 1, then fails at retries = 30, and otherwise re-fetches the
codespace with GetCodespace and continues with the result. The returned
trace lists the sleeps and fetches in program order. -/
def connectLoop (api : APIClient) :
    Nat → Codespace → List ConnectEvent × Except String Codespace
  | 0, codespace =>
    if connectionReady codespace then ([], Except.ok codespace)
    else
      let retries := 30 - (0 : Nat)
      let sleeps := if 1 < retries then [ConnectEvent.sleep] else []
      (sleeps, Except.error "timed out while waiting for the Codespace to start")
  | Nat.succ r, codespace =>
    if connectionReady codespace then ([], Except.ok codespace)
    else
      let retries := 30 - (r + 1)
      let sleeps := if 1 < retries then [ConnectEvent.sleep] else []
      match api.getCodespace retries with
      | Except.error e =>
          (sleeps ++ [ConnectEvent.fetch retries],
           Except.error ("error getting Codespace: " ++ e))
      | Except.ok next =>
          let rest := connectLoop api r next
          (sleeps ++ ConnectEvent.fetch retries :: rest.1, rest.2)

/-- The trace the poll loop emits from a given remaining count when every
test of connectionReady reports unready: at remaining = r + 1 the
iteration runs at retries = 29 - r, sleeping first when that count
exceeds 1 and then fetching; at remaining = 0 the iteration runs at
retries = 30, sleeping and then timing out. -/
def unreadyTrace : Nat → List ConnectEvent
  | 0 => [ConnectEvent.sleep]
  | Nat.succ r =>
      (if 1 < 29 - r then [ConnectEvent.sleep] else []) ++
        ConnectEvent.fetch (29 - r) :: unreadyTrace r

/-- ConnectToLiveshare of states.go, up to the poll loop: when the
reported state of the codespace is not available, a start-workspace
request is issued first (its failure aborts the call); then the poll
loop runs with retries = 0, that is remaining = 30. The session join
performed on the ready codespace is outside this model; the function
returns the ready codespace whose connection descriptor the join would
use, together with the trace of observable actions. -/
def ConnectToLiveshare (api : APIClient) (codespace : Codespace) :
    List ConnectEvent × Except String Codespace :=
  if codespace.environment.state != CodespaceEnvironmentStateAvailable then
    match api.startCodespace with
    | Except.error e =>
        ([ConnectEvent.start], Except.error ("error starting Codespace: " ++ e))
    | Except.ok _ =>
        let rest := connectLoop api 30 codespace
        (ConnectEvent.start :: rest.1, rest.2)
  else
    connectLoop api 30 codespace

/-- Go type PostCreateState of states.go. -/
structure PostCreateState where
  name : String
  status : String
deriving DecidableEq, Repr

/-- getPostCreateOutput of states.go: runs the remote cat command over
the tunnel (abstracted by its result `runOutput`) and unmarshals the
captured stdout (abstracted by `unmarshal`, returning the steps list);
a failure of either stage is wrapped and aborts the read. -/
def getPostCreateOutput (runOutput : Except String String)
    (unmarshal : String → Except String (List PostCreateState)) :
    Except String (List PostCreateState) :=
  match runOutput with
  | Except.error e => Except.error ("run command: " ++ e)
  | Except.ok out =>
    match unmarshal out with
    | Except.error e => Except.error ("unmarshal output: " ++ e)
    | Except.ok steps => Except.ok steps

/-- One event the select loop of PollPostCreateStates observes, in
arrival order: context cancellation, the connection-closed signal of the
tunnel with its error, or a tick of the 1-second ticker. -/
inductive PollEvent where
  | ctxDone : PollEvent
  | connClosed (err : String) : PollEvent
  | tick : PollEvent
deriving DecidableEq, Repr

/-- The observable result of the loop of PollPostCreateStates over a
prefix of events: the batches delivered to the poller so far, and how the
loop ended — `none` for a nil return (context cancelled), `some msg` for
an error return — or `running` when the observed prefix leaves the loop
still blocked in its select. -/
inductive PollResult where
  | running (delivered : List (List PostCreateState)) : PollResult
  | finished (delivered : List (List PostCreateState)) (err : Option String) : PollResult
deriving DecidableEq, Repr

/-- The select loop of PollPostCreateStates, states.go, linearised over
the list of events it observes; `ticks i` abstracts the result of
getPostCreateOutput at the i-th tick. ctx.Done returns nil; the
connection-closed signal returns a wrapped error; a tick whose read
fails returns a wrapped error at once (the remaining events are never
reached), and a tick whose read succeeds delivers the whole batch to the
poller and loops. -/
def pollLoop (ticks : Nat → Except String (List PostCreateState)) :
    List PollEvent → Nat → PollResult
  | [], _ => PollResult.running []
  | PollEvent.ctxDone :: _, _ => PollResult.finished [] none
  | PollEvent.connClosed e :: _, _ =>
      PollResult.finished [] (some ("connection closed: " ++ e))
  | PollEvent.tick :: rest, i =>
    match ticks i with
    | Except.error e =>
        PollResult.finished [] (some ("get post create output: " ++ e))
    | Except.ok states =>
      match pollLoop ticks rest (i + 1) with
      | PollResult.running ds => PollResult.running (states :: ds)
      | PollResult.finished ds err => PollResult.finished (states :: ds) err

/-- PollPostCreateStates of states.go: the three setup stages — codespace
token, ConnectToLiveshare, StartPortForwarding — abstracted by their
results, each failure wrapped as in the source; when all succeed the
select loop runs over the observed events starting at tick 0. -/
def PollPostCreateStates (tokenResult : Except String Unit)
    (connectResult : Except String Unit) (tunnelResult : Except String Unit)
    (ticks : Nat → Except String (List PostCreateState))
    (events : List PollEvent) : PollResult :=
  match tokenResult with
  | Except.error e =>
      PollResult.finished [] (some ("getting codespace token: " ++ e))
  | Except.ok _ =>
    match connectResult with
    | Except.error e =>
        PollResult.finished [] (some ("connect to liveshare: " ++ e))
    | Except.ok _ =>
      match tunnelResult with
      | Except.error e =>
          PollResult.finished [] (some ("make ssh tunnel: " ++ e))
      | Except.ok _ => pollLoop ticks events 0

/-- Fixture: a codespace reported available whose connection descriptor
is still missing its sessionID. -/
def sampleAvailableUnready : Codespace :=
  { name := "codespace",
    environment :=
      { state := "available",
        connection :=
          { sessionID := "", sessionToken := "token",
            relayEndpoint := "endpoint", relaySAS := "sas" } } }

/-- Fixture: a fully ready codespace. -/
def sampleReady : Codespace :=
  { name := "codespace",
    environment :=
      { state := "available",
        connection :=
          { sessionID := "session", sessionToken := "token",
            relayEndpoint := "endpoint", relaySAS := "sas" } } }

/-- Fixture: an api client whose every re-fetch returns the available but
incomplete codespace. -/
def sampleAPI : APIClient :=
  { startCodespace := Except.ok (),
    getCodespace := fun _ => Except.ok sampleAvailableUnready }

/-- Fixture: a tick reader whose every read succeeds with an empty batch. -/
def sampleTicks : Nat → Except String (List PostCreateState) :=
  fun _ => Except.ok []

/-- Fixture: the batches sampleTicks reports. -/
def sampleBatch : Nat → List PostCreateState :=
  fun _ => []

end codespaces

open liveshare codespaces

/-! ## Association-list map lemmas -/

theorem mapLookup_mapSet_self {α : Type} (m : List (String × α)) (k : String) (v : α) :
    mapLookup (mapSet m k v) k = some v := by
  induction m with
  | nil => simp [mapSet, mapLookup]
  | cons kv rest ih =>
    obtain ⟨k2, w⟩ := kv
    by_cases h : k2 = k
    · simp [mapSet, h, mapLookup]
    · simp [mapSet, h, mapLookup, ih]

theorem mapLookup_mem {α : Type} (m : List (String × α)) (k : String) (v : α)
    (h : mapLookup m k = some v) : (k, v) ∈ m := by
  induction m with
  | nil => simp [mapLookup] at h
  | cons kv rest ih =>
    obtain ⟨k2, w⟩ := kv
    by_cases hk : k2 = k
    · subst hk
      simp [mapLookup] at h
      subst h
      exact List.mem_cons_self _ _
    · simp [mapLookup, hk] at h
      exact List.mem_cons_of_mem _ (ih h)

theorem mapSet_lookup_self {α : Type} (m : List (String × α)) (k : String) (v : α)
    (h : mapLookup m k = some v) : mapSet m k v = m := by
  induction m with
  | nil => simp [mapLookup] at h
  | cons kv rest ih =>
    obtain ⟨k2, w⟩ := kv
    by_cases hk : k2 = k
    · subst hk
      simp [mapLookup] at h
      simp [mapSet, h]
    · simp [mapLookup, hk] at h
      simp [mapSet, hk, ih h]

/-! ## Lifecycle controller lemmas -/

/-- The readiness predicate unfolded: all four descriptor fields non-empty
and the state equal to "available". -/
theorem connectionReady_spec (cs : Codespace) :
    connectionReady cs = true ↔
      (cs.environment.connection.sessionID ≠ "" ∧
       cs.environment.connection.sessionToken ≠ "" ∧
       cs.environment.connection.relayEndpoint ≠ "" ∧
       cs.environment.connection.relaySAS ≠ "" ∧
       cs.environment.state = "available") := by
  simp [connectionReady, CodespaceEnvironmentStateAvailable, Bool.and_eq_true,
    bne_iff_ne, beq_iff_eq, and_assoc]

/-- A ready codespace reports the available state. -/
theorem connectionReady_state (cs : Codespace) (h : connectionReady cs = true) :
    cs.environment.state = CodespaceEnvironmentStateAvailable :=
  ((connectionReady_spec cs).1 h).2.2.2.2

/-- The poll loop never issues the start-workspace request. -/
theorem connectLoop_no_start (api : APIClient) (remaining : Nat) (cs : Codespace) :
    ConnectEvent.start ∉ (connectLoop api remaining cs).1 := by
  induction remaining generalizing cs with
  | zero =>
    by_cases h : connectionReady cs <;> simp [connectLoop, h]
  | succ r ih =>
    by_cases h : connectionReady cs
    · simp [connectLoop, h]
    · cases hg : api.getCodespace (29 - r) with
      | error e => simp [connectLoop, h, hg]
      | ok next =>
        simp [connectLoop, h, hg]
        exact ih next

/-- One unready step of the poll loop, unfolded. -/
theorem connectLoop_succ_unready (api : APIClient) (r : Nat) (cs : Codespace)
    (h : connectionReady cs = false) :
    connectLoop api (r + 1) cs =
      match api.getCodespace (30 - (r + 1)) with
      | Except.error e =>
          ((if 1 < 30 - (r + 1) then [ConnectEvent.sleep] else []) ++
             [ConnectEvent.fetch (30 - (r + 1))],
           Except.error ("error getting Codespace: " ++ e))
      | Except.ok next =>
          ((if 1 < 30 - (r + 1) then [ConnectEvent.sleep] else []) ++
             ConnectEvent.fetch (30 - (r + 1)) :: (connectLoop api r next).1,
           (connectLoop api r next).2) := by
  simp [connectLoop, h]

/-- A first iteration of the poll loop on an unready codespace issues the
fetch at retries = 0 with no sleep before it. -/
theorem connectLoop_first_fetch (api : APIClient) (cs : Codespace)
    (h : connectionReady cs = false) :
    ConnectEvent.fetch 0 ∈ (connectLoop api 30 cs).1 := by
  have h30 : (30 : Nat) = 29 + 1 := rfl
  rw [h30, connectLoop_succ_unready api 29 cs h]
  cases hg : api.getCodespace (30 - (29 + 1)) with
  | error e => simp [hg]
  | ok next => simp [hg]

/-- When every fetched codespace is unready, the poll loop runs its full
budget and times out, emitting exactly the unreadyTrace. -/
theorem connectLoop_unready (api : APIClient) (g : Nat → Codespace)
    (hfetch : ∀ i, api.getCodespace i = Except.ok (g i))
    (hunready : ∀ i, connectionReady (g i) = false) (remaining : Nat)
    (cs : Codespace) (h : connectionReady cs = false) :
    connectLoop api remaining cs =
      (unreadyTrace remaining,
       Except.error "timed out while waiting for the Codespace to start") := by
  induction remaining generalizing cs with
  | zero => simp [connectLoop, h, unreadyTrace]
  | succ r ih =>
    simp [connectLoop, h, hfetch (29 - r), unreadyTrace,
      ih (g (29 - r)) (hunready (29 - r))]

/-- A ready codespace leaves the poll loop at once, whatever the budget. -/
theorem connectLoop_ready (api : APIClient) (remaining : Nat) (cs : Codespace)
    (h : connectionReady cs = true) :
    connectLoop api remaining cs = ([], Except.ok cs) := by
  cases remaining <;> simp [connectLoop, h]

/-- With the reported state available, ConnectToLiveshare is exactly the
poll loop at retries = 0: no start-workspace request is issued. -/
theorem ConnectToLiveshare_available (api : APIClient) (cs : Codespace)
    (h : cs.environment.state = CodespaceEnvironmentStateAvailable) :
    ConnectToLiveshare api cs = connectLoop api 30 cs := by
  simp [ConnectToLiveshare, h]

/-- Claim C7: the readiness predicate holds exactly when the four
connection-descriptor fields sessionID, sessionToken, relayEndpoint and
relaySAS are all non-empty and the workspace state equals "available";
otherwise the workspace is not ready. -/
theorem connectionReady_iff_descriptor_and_available (cs : Codespace) :
    connectionReady cs = true ↔
      (cs.environment.connection.sessionID ≠ "" ∧
       cs.environment.connection.sessionToken ≠ "" ∧
       cs.environment.connection.relayEndpoint ≠ "" ∧
       cs.environment.connection.relaySAS ≠ "" ∧
       cs.environment.state = "available") :=
  connectionReady_spec cs

/-- Claim C3: with every re-fetch reporting an unready codespace, the
lifecycle controller emits the fetches at retries 0 to 29 — no sleep
before the second fetch, a 1-second sleep before each later fetch and
before the timeout — and fails with the timeout error; and when the
codespace is ready on the first check it succeeds at once, with no fetch
and no sleep. -/
theorem ConnectToLiveshare_poll_budget (api : APIClient) (g : Nat → Codespace)
    (cs : Codespace)
    (hfetch : ∀ i, api.getCodespace i = Except.ok (g i))
    (hunready : ∀ i, connectionReady (g i) = false) :
    (connectionReady cs = false →
      cs.environment.state = CodespaceEnvironmentStateAvailable →
      ConnectToLiveshare api cs =
        (((List.range 30).flatMap fun i =>
            if 1 < i then [ConnectEvent.sleep, ConnectEvent.fetch i]
            else [ConnectEvent.fetch i]) ++ [ConnectEvent.sleep],
         Except.error "timed out while waiting for the Codespace to start"))
    ∧ (connectionReady cs = true →
        ConnectToLiveshare api cs = ([], Except.ok cs)) := by
  constructor
  · intro h hstate
    rw [ConnectToLiveshare_available api cs hstate,
      connectLoop_unready api g hfetch hunready 30 cs h]
    have htrace : unreadyTrace 30 =
        ((List.range 30).flatMap fun i =>
          if 1 < i then [ConnectEvent.sleep, ConnectEvent.fetch i]
          else [ConnectEvent.fetch i]) ++ [ConnectEvent.sleep] := by decide
    rw [htrace]
  · intro h
    rw [ConnectToLiveshare_available api cs (connectionReady_state cs h)]
    exact connectLoop_ready api 30 cs h

/-- Witness for claim C3 at a concrete api client and codespace. -/
theorem ConnectToLiveshare_poll_budget_witness :
    (∀ i : Nat, sampleAPI.getCodespace i = Except.ok sampleAvailableUnready) ∧
    connectionReady sampleAvailableUnready = false ∧
    ((connectionReady sampleAvailableUnready = false →
      sampleAvailableUnready.environment.state = CodespaceEnvironmentStateAvailable →
      ConnectToLiveshare sampleAPI sampleAvailableUnready =
        (((List.range 30).flatMap fun i =>
            if 1 < i then [ConnectEvent.sleep, ConnectEvent.fetch i]
            else [ConnectEvent.fetch i]) ++ [ConnectEvent.sleep],
         Except.error "timed out while waiting for the Codespace to start"))
    ∧ (connectionReady sampleAvailableUnready = true →
        ConnectToLiveshare sampleAPI sampleAvailableUnready =
          ([], Except.ok sampleAvailableUnready))) :=
  ⟨fun _ => rfl, by decide,
   ConnectToLiveshare_poll_budget sampleAPI (fun _ => sampleAvailableUnready)
     sampleAvailableUnready (fun _ => rfl)
     (fun _ => (by decide : connectionReady sampleAvailableUnready = false))⟩

/-- Claim C10: ConnectToLiveshare issues the start-workspace request at
most once — exactly when the initially reported state is not available —
and when the state is available but the descriptor incomplete, the poll
loop runs (a fetch at retries = 0 happens) with no start-workspace
request ever issued. -/
theorem ConnectToLiveshare_start_request_at_most_once (api : APIClient)
    (cs : Codespace) :
    ((ConnectToLiveshare api cs).1.count ConnectEvent.start =
       if cs.environment.state = CodespaceEnvironmentStateAvailable then 0 else 1)
    ∧ (cs.environment.state = CodespaceEnvironmentStateAvailable →
        connectionReady cs = false →
        ConnectEvent.start ∉ (ConnectToLiveshare api cs).1 ∧
        ConnectEvent.fetch 0 ∈ (ConnectToLiveshare api cs).1) := by
  constructor
  · by_cases h : cs.environment.state = CodespaceEnvironmentStateAvailable
    · rw [ConnectToLiveshare_available api cs h, if_pos h, List.count_eq_zero]
      exact connectLoop_no_start api 30 cs
    · rw [if_neg h]
      have hb : (cs.environment.state != CodespaceEnvironmentStateAvailable) = true := by
        simpa [bne_iff_ne] using h
      cases hs : api.startCodespace with
      | error e => simp [ConnectToLiveshare, hb, hs]
      | ok u =>
        simp only [ConnectToLiveshare, hb, hs, if_true]
        rw [List.count_cons]
        simp [List.count_eq_zero.2 (connectLoop_no_start api 30 cs)]
  · intro h hur
    rw [ConnectToLiveshare_available api cs h]
    exact ⟨connectLoop_no_start api 30 cs, connectLoop_first_fetch api cs hur⟩

/-! ## Remote state poller lemmas -/

/-- A run of successful ticks prepends its batches to whatever the loop
does on the remaining events. -/
theorem pollLoop_replicate (ticks : Nat → Except String (List PostCreateState))
    (batch : Nat → List PostCreateState) (evs : List PollEvent) (n : Nat) :
    ∀ i, (∀ j, j < n → ticks (i + j) = Except.ok (batch (i + j))) →
    pollLoop ticks (List.replicate n PollEvent.tick ++ evs) i =
      match pollLoop ticks evs (i + n) with
      | PollResult.running ds =>
          PollResult.running (((List.range n).map fun j => batch (i + j)) ++ ds)
      | PollResult.finished ds err =>
          PollResult.finished (((List.range n).map fun j => batch (i + j)) ++ ds) err := by
  induction n with
  | zero =>
    intro i _
    rw [List.replicate_zero, List.nil_append, Nat.add_zero]
    cases hp : pollLoop ticks evs i <;> simp [hp]
  | succ m ih =>
    intro i h
    have hti : ticks i = Except.ok (batch i) := by
      simpa using h 0 (Nat.succ_pos m)
    have hshift : ∀ j, j < m → ticks (i + 1 + j) = Except.ok (batch (i + 1 + j)) := by
      intro j hj
      have := h (j + 1) (by omega)
      have hadd : i + (j + 1) = i + 1 + j := by omega
      rwa [hadd] at this
    have hrange : ((List.range (m + 1)).map fun j => batch (i + j)) =
        batch i :: ((List.range m).map fun j => batch (i + 1 + j)) := by
      rw [List.range_succ_eq_map, List.map_cons, List.map_map]
      refine congrArg₂ _ (by rw [Nat.add_zero]) (List.map_congr_left ?_)
      intro j _
      show batch (i + (j + 1)) = batch (i + 1 + j)
      rw [show i + (j + 1) = i + 1 + j by omega]
    rw [List.replicate_succ, List.cons_append]
    rw [show pollLoop ticks (PollEvent.tick :: (List.replicate m PollEvent.tick ++ evs)) i =
          match ticks i with
          | Except.error e =>
              PollResult.finished [] (some ("get post create output: " ++ e))
          | Except.ok states =>
            match pollLoop ticks (List.replicate m PollEvent.tick ++ evs) (i + 1) with
            | PollResult.running ds => PollResult.running (states :: ds)
            | PollResult.finished ds err => PollResult.finished (states :: ds) err
          from rfl]
    rw [hti, ih (i + 1) hshift, hrange]
    rw [show i + (m + 1) = i + 1 + m by omega]
    cases pollLoop ticks evs (i + 1 + m) <;> simp

/-- Claim C6: with the three setup stages successful, the watch returns
nil when the context is cancelled (after any run of successful ticks);
it returns a non-nil wrapped error when the connection-closed signal
fires; and a tick whose read or parse fails returns a non-nil wrapped
error at once, aborting the whole watch no matter what events follow. -/
theorem PollPostCreateStates_exit_modes
    (ticks : Nat → Except String (List PostCreateState))
    (batch : Nat → List PostCreateState) (evs : List PollEvent) (n : Nat)
    (e : String) (h : ∀ j, j < n → ticks j = Except.ok (batch j)) :
    (PollPostCreateStates (Except.ok ()) (Except.ok ()) (Except.ok ()) ticks
        (List.replicate n PollEvent.tick ++ PollEvent.ctxDone :: evs) =
      PollResult.finished ((List.range n).map batch) none)
    ∧ (PollPostCreateStates (Except.ok ()) (Except.ok ()) (Except.ok ()) ticks
        (List.replicate n PollEvent.tick ++ PollEvent.connClosed e :: evs) =
      PollResult.finished ((List.range n).map batch)
        (some ("connection closed: " ++ e)))
    ∧ (ticks n = Except.error e →
      PollPostCreateStates (Except.ok ()) (Except.ok ()) (Except.ok ()) ticks
          (List.replicate n PollEvent.tick ++ PollEvent.tick :: evs) =
        PollResult.finished ((List.range n).map batch)
          (some ("get post create output: " ++ e))) := by
  have h0 : ∀ j, j < n → ticks (0 + j) = Except.ok (batch (0 + j)) := by
    intro j hj
    rw [Nat.zero_add]
    exact h j hj
  refine ⟨?_, ?_, ?_⟩
  · show pollLoop ticks (List.replicate n PollEvent.tick ++ PollEvent.ctxDone :: evs) 0 = _
    rw [pollLoop_replicate ticks batch _ n 0 h0]
    simp [pollLoop]
  · show pollLoop ticks
        (List.replicate n PollEvent.tick ++ PollEvent.connClosed e :: evs) 0 = _
    rw [pollLoop_replicate ticks batch _ n 0 h0]
    simp [pollLoop]
  · intro he
    show pollLoop ticks (List.replicate n PollEvent.tick ++ PollEvent.tick :: evs) 0 = _
    rw [pollLoop_replicate ticks batch _ n 0 h0]
    simp [pollLoop, Nat.zero_add, he]

/-- Witness for claim C6 at one successful tick followed by each ending. -/
theorem PollPostCreateStates_exit_modes_witness :
    (∀ j, j < 1 → sampleTicks j = Except.ok (sampleBatch j)) ∧
    ((PollPostCreateStates (Except.ok ()) (Except.ok ()) (Except.ok ()) sampleTicks
        (List.replicate 1 PollEvent.tick ++ PollEvent.ctxDone :: []) =
      PollResult.finished ((List.range 1).map sampleBatch) none)
    ∧ (PollPostCreateStates (Except.ok ()) (Except.ok ()) (Except.ok ()) sampleTicks
        (List.replicate 1 PollEvent.tick ++ PollEvent.connClosed "x" :: []) =
      PollResult.finished ((List.range 1).map sampleBatch)
        (some ("connection closed: " ++ "x")))
    ∧ (sampleTicks 1 = Except.error "x" →
      PollPostCreateStates (Except.ok ()) (Except.ok ()) (Except.ok ()) sampleTicks
          (List.replicate 1 PollEvent.tick ++ PollEvent.tick :: []) =
        PollResult.finished ((List.range 1).map sampleBatch)
          (some ("get post create output: " ++ "x")))) :=
  ⟨fun _ _ => rfl,
   PollPostCreateStates_exit_modes sampleTicks sampleBatch [] 1 "x" (fun _ _ => rfl)⟩

/-! ## Port-notification wait lemmas -/

/-- A wait only ever returns a notification matching both the requested
port and the requested change kind. -/
theorem WaitForPortNotification_ok_fields (port : Int)
    (notifType : PortChangeKind) (evs : List SessionEvent)
    (n : PortNotification)
    (h : WaitForPortNotification port notifType evs = WaitOutcome.ok n) :
    n.port = port ∧ n.changeKind = notifType := by
  induction evs with
  | nil => simp [WaitForPortNotification] at h
  | cons ev rest ih =>
    cases ev with
    | ctxDone => simp [WaitForPortNotification] at h
    | frame s parsed =>
      cases parsed with
      | error e => simp [WaitForPortNotification] at h
      | ok u =>
        by_cases hc : (u.port == port && u.changeKind == notifType) = true
        · rw [WaitForPortNotification, if_pos hc] at h
          obtain ⟨h1, h2⟩ := by simpa [Bool.and_eq_true, beq_iff_eq] using hc
          cases h
          exact ⟨h1, h2⟩
        · rw [WaitForPortNotification, if_neg hc] at h
          exact ih h

/-- A frame whose parsed notification fails the port-and-kind filter is
dropped: the wait behaves as if the frame had never arrived. -/
theorem WaitForPortNotification_skip (port : Int) (notifType : PortChangeKind)
    (s : Bool) (u : PortUpdate) (evs₁ evs₂ : List SessionEvent)
    (h : (u.port == port && u.changeKind == notifType) = false) :
    WaitForPortNotification port notifType
        (evs₁ ++ SessionEvent.frame s (Except.ok u) :: evs₂) =
      WaitForPortNotification port notifType (evs₁ ++ evs₂) := by
  induction evs₁ with
  | nil =>
    rw [List.nil_append, List.nil_append, WaitForPortNotification, if_neg]
    rw [h]
    simp
  | cons ev rest ih =>
    cases ev with
    | ctxDone => simp [WaitForPortNotification]
    | frame s2 parsed =>
      cases parsed with
      | error e => simp [WaitForPortNotification]
      | ok u2 =>
        by_cases hc : (u2.port == port && u2.changeKind == notifType) = true
        · rw [List.cons_append, WaitForPortNotification, if_pos hc,
            List.cons_append, WaitForPortNotification, if_pos hc]
        · rw [List.cons_append, WaitForPortNotification, if_neg hc,
            List.cons_append, WaitForPortNotification, if_neg hc]
          exact ih

/-- Over an event list of parsed frames only, the wait resolves exactly on
the first matching notification, and stays blocked when there is none. -/
theorem WaitForPortNotification_eq_first (port : Int)
    (notifType : PortChangeKind) (evs : List SessionEvent)
    (hwf : ∀ ev ∈ evs, isParsedFrame ev = true) :
    WaitForPortNotification port notifType evs =
      match firstPortNotification port notifType evs with
      | some n => WaitOutcome.ok n
      | none => WaitOutcome.waiting := by
  induction evs with
  | nil => simp [WaitForPortNotification, firstPortNotification]
  | cons ev rest ih =>
    have hev := hwf ev (List.mem_cons_self ev rest)
    have hrest : ∀ e ∈ rest, isParsedFrame e = true :=
      fun e he => hwf e (List.mem_cons_of_mem ev he)
    cases ev with
    | ctxDone => simp [isParsedFrame] at hev
    | frame s parsed =>
      cases parsed with
      | error e => simp [isParsedFrame] at hev
      | ok u =>
        by_cases hc : (u.port == port && u.changeKind == notifType) = true
        · rw [WaitForPortNotification, if_pos hc, firstPortNotification, if_pos hc]
        · rw [WaitForPortNotification, if_neg hc, firstPortNotification, if_neg hc]
          exact ih hrest

/-- Claim C2: a notification for an unrelated port number arriving while
a wait is pending is discarded and the wait continues — the wait behaves
exactly as if the unrelated-port notification had never arrived, so its
arrival can never terminate the wait or the port-sharing state machine. -/
theorem WaitForPortNotification_discards_unrelated_port (port : Int)
    (notifType : PortChangeKind) (s : Bool) (u : PortUpdate)
    (evs₁ evs₂ : List SessionEvent) (h : u.port ≠ port) :
    WaitForPortNotification port notifType
        (evs₁ ++ SessionEvent.frame s (Except.ok u) :: evs₂) =
      WaitForPortNotification port notifType (evs₁ ++ evs₂) :=
  WaitForPortNotification_skip port notifType s u evs₁ evs₂ (by simp [h])

/-- Witness for claim C2: a wait for port 2222 ignores a start
notification for port 80. -/
theorem WaitForPortNotification_discards_unrelated_port_witness :
    sampleUnrelatedUpdate.port ≠ 2222 ∧
    WaitForPortNotification 2222 PortChangeKindStart
        ([] ++ SessionEvent.frame true (Except.ok sampleUnrelatedUpdate) :: []) =
      WaitForPortNotification 2222 PortChangeKindStart ([] ++ []) :=
  ⟨by decide,
   WaitForPortNotification_discards_unrelated_port 2222 PortChangeKindStart
     true sampleUnrelatedUpdate [] [] (by decide)⟩

/-- Claim C8: the wait filters on both fields — a returned notification
matches the requested port and the requested change kind — and a
notification matching the port but carrying a different changeKind is
skipped, the wait continuing as if it had never arrived. -/
theorem WaitForPortNotification_filters_port_and_kind (port : Int)
    (notifType : PortChangeKind) :
    (∀ (evs : List SessionEvent) (n : PortNotification),
        WaitForPortNotification port notifType evs = WaitOutcome.ok n →
        n.port = port ∧ n.changeKind = notifType)
    ∧ (∀ (s : Bool) (u : PortUpdate) (evs₁ evs₂ : List SessionEvent),
        u.port = port → u.changeKind ≠ notifType →
        WaitForPortNotification port notifType
            (evs₁ ++ SessionEvent.frame s (Except.ok u) :: evs₂) =
          WaitForPortNotification port notifType (evs₁ ++ evs₂)) :=
  ⟨fun evs n h => WaitForPortNotification_ok_fields port notifType evs n h,
   fun s u evs₁ evs₂ _ hk =>
     WaitForPortNotification_skip port notifType s u evs₁ evs₂ (by simp [hk])⟩

/-- Claim C1: startSharing succeeds only when the RPC call returned a
Port record and a success notification matching the exact port number
arrived, and the returned channelID is the streamName/streamCondition
pair of the RPC response — never data of the notification; conversely,
an RPC Port response together with a matching success notification
yields exactly that channelID. -/
theorem startSharing_channelID_from_rpc_response
    (rpcResult : Except String Port) (events : List SessionEvent)
    (sessionName : String) (port : Int) :
    (∀ cid, startSharing rpcResult events sessionName port =
        StartSharingOutcome.ok cid →
      ∃ p, rpcResult = Except.ok p ∧
        cid = { name := p.streamName, condition := p.streamCondition } ∧
        ∃ u, WaitForPortNotification port PortChangeKindStart events =
            WaitOutcome.ok { toPortUpdate := u, success := true } ∧
          u.port = port)
    ∧ (∀ p u, rpcResult = Except.ok p →
        WaitForPortNotification port PortChangeKindStart events =
          WaitOutcome.ok { toPortUpdate := u, success := true } →
        startSharing rpcResult events sessionName port =
          StartSharingOutcome.ok
            { name := p.streamName, condition := p.streamCondition }) := by
  constructor
  · intro cid h
    cases hr : rpcResult with
    | error e => rw [hr] at h; simp [startSharing] at h
    | ok p =>
      rw [hr] at h
      cases hw : WaitForPortNotification port PortChangeKindStart events with
      | waiting => rw [startSharing, hw] at h; cases h
      | canceled => rw [startSharing, hw] at h; cases h
      | unmarshalError m => rw [startSharing, hw] at h; cases h
      | ok n =>
        rw [startSharing, hw] at h
        cases hs : n.success with
        | false => simp [hs] at h
        | true =>
          simp only [hs, if_true] at h
          have h2 : StartSharingOutcome.ok
              { name := p.streamName, condition := p.streamCondition } =
              StartSharingOutcome.ok cid := h
          have h3 : cid =
              ({ name := p.streamName, condition := p.streamCondition } :
                channelID) := by
            cases h2
            rfl
          refine ⟨p, rfl, h3, n.toPortUpdate, ?_, ?_⟩
          · cases n
            simp only at hs
            rw [← hs]
          · exact (WaitForPortNotification_ok_fields port PortChangeKindStart
              events n hw).1
  · intro p u hp hw
    rw [hp, startSharing, hw]
    simp

/-- Claim C5: over an event stream of parsed frames (no cancellation, no
unmarshal failure), startSharing fails exactly when the RPC call errors
or the first matching notification for the requested port is a failure
notification; and in the notification case the reported error message is
the sharing-failed wrapper applied to the ErrorDetail of the
notification, so it contains that detail. -/
theorem startSharing_failure_modes (rpcResult : Except String Port)
    (events : List SessionEvent) (sessionName : String) (port : Int)
    (hwf : ∀ ev ∈ events, isParsedFrame ev = true) :
    ((∃ m, startSharing rpcResult events sessionName port =
        StartSharingOutcome.err m) ↔
      (∃ e, rpcResult = Except.error e) ∨
      (∃ n, firstPortNotification port PortChangeKindStart events = some n ∧
        n.success = false))
    ∧ (∀ p n, rpcResult = Except.ok p →
        firstPortNotification port PortChangeKindStart events = some n →
        n.success = false →
        startSharing rpcResult events sessionName port =
          StartSharingOutcome.err
            ("error while starting port sharing: " ++ n.errorDetail)) := by
  have heq := WaitForPortNotification_eq_first port PortChangeKindStart events hwf
  constructor
  · cases hr : rpcResult with
    | error e =>
      constructor
      · intro _
        exact Or.inl ⟨e, rfl⟩
      · intro _
        exact ⟨e, by rw [startSharing]⟩
    | ok p =>
      cases hf : firstPortNotification port PortChangeKindStart events with
      | none =>
        rw [hf] at heq
        constructor
        · intro ⟨m, hm⟩
          rw [startSharing, heq] at hm
          cases hm
        · rintro (⟨e, he⟩ | ⟨n, hn, _⟩)
          · cases he
          · cases hn
      | some n =>
        rw [hf] at heq
        cases hs : n.success with
        | true =>
          constructor
          · intro ⟨m, hm⟩
            rw [startSharing, heq] at hm
            simp [hs] at hm
          · rintro (⟨e, he⟩ | ⟨n2, hn2, hs2⟩)
            · cases he
            · obtain rfl := Option.some.inj hn2
              rw [hs] at hs2
              cases hs2
        | false =>
          constructor
          · intro _
            exact Or.inr ⟨n, rfl, hs⟩
          · intro _
            refine ⟨"error while starting port sharing: " ++ n.errorDetail, ?_⟩
            rw [startSharing, heq]
            simp [hs]
  · intro p n hp hf hs
    rw [hp, startSharing, heq, hf]
    simp [hs]

/-- Witness for claim C5: a fake relay returning a Port record and firing
a failure notification with errorDetail "x" for port 2222. -/
theorem startSharing_failure_modes_witness :
    (∀ ev ∈ [SessionEvent.frame false (Except.ok sampleFailedUpdate)],
      isParsedFrame ev = true) ∧
    (((∃ m, startSharing (Except.ok samplePort)
        [SessionEvent.frame false (Except.ok sampleFailedUpdate)] "sshd" 2222 =
          StartSharingOutcome.err m) ↔
      (∃ e, (Except.ok samplePort : Except String Port) = Except.error e) ∨
      (∃ n, firstPortNotification 2222 PortChangeKindStart
          [SessionEvent.frame false (Except.ok sampleFailedUpdate)] = some n ∧
        n.success = false))
    ∧ (∀ p n, (Except.ok samplePort : Except String Port) = Except.ok p →
        firstPortNotification 2222 PortChangeKindStart
          [SessionEvent.frame false (Except.ok sampleFailedUpdate)] = some n →
        n.success = false →
        startSharing (Except.ok samplePort)
          [SessionEvent.frame false (Except.ok sampleFailedUpdate)] "sshd" 2222 =
          StartSharingOutcome.err
            ("error while starting port sharing: " ++ n.errorDetail))) :=
  ⟨by decide,
   startSharing_failure_modes (Except.ok samplePort)
     [SessionEvent.frame false (Except.ok sampleFailedUpdate)] "sshd" 2222
     (by decide)⟩

/-! ## RPC handler lemmas -/

/-- Delivery with no lost race sends to every channel in order. -/
theorem filterMap_no_cancel (l : List Nat) (req : Request)
    (cancelled : Nat → Bool) (hc : ∀ i, cancelled i = false) :
    (l.filterMap fun c => if cancelled c then none else some (c, req)) =
      l.map fun c => (c, req) := by
  induction l with
  | nil => rfl
  | cons a t ih => simp [List.filterMap_cons, hc a, ih]

/-- Claim C4: when a notification arrives for a method with registered
listeners, every currently registered listener receives the frame when no
send loses its cancellation race; the registration set for the method is
afterwards set to empty — regardless of which deliveries were actually
made — while the fresh counter is untouched; deliveries go only to the
listeners registered at arrival; and a listener registered afterwards is
a channel distinct from every one that was delivered to. -/
theorem Handle_broadcast_and_clear (cancelled : Nat → Bool) (st : RpcState)
    (req : Request) (handlers : List Nat)
    (h : mapLookup st.eventHandlers req.method = some handlers) :
    ((∀ i, cancelled i = false) →
      (Handle cancelled st req).1 = handlers.map fun c => (c, req))
    ∧ mapLookup (Handle cancelled st req).2.eventHandlers req.method = some []
    ∧ (Handle cancelled st req).2.nextChan = st.nextChan
    ∧ (∀ c r, (c, r) ∈ (Handle cancelled st req).1 → c ∈ handlers ∧ r = req)
    ∧ (chanBound st →
        ∀ c r, (c, r) ∈ (Handle cancelled st req).1 →
          c ≠ (registerEventHandler (Handle cancelled st req).2 req.method).1) := by
  have hmem : ∀ c r, (c, r) ∈ (Handle cancelled st req).1 →
      c ∈ handlers ∧ r = req := by
    intro c r hcr
    rw [Handle, h] at hcr
    simp only [List.mem_filterMap] at hcr
    obtain ⟨a, ha, hfa⟩ := hcr
    by_cases hca : cancelled a = true
    · rw [if_pos hca] at hfa
      cases hfa
    · rw [if_neg hca] at hfa
      obtain ⟨rfl, rfl⟩ : a = c ∧ req = r := by
        constructor <;> cases hfa <;> rfl
      exact ⟨ha, rfl⟩
  refine ⟨?_, ?_, ?_, hmem, ?_⟩
  · intro hc
    rw [Handle, h]
    exact filterMap_no_cancel handlers req cancelled hc
  · rw [Handle, h]
    exact mapLookup_mapSet_self st.eventHandlers req.method []
  · rw [Handle, h]
  · intro hb c r hcr
    have hch : c ∈ handlers := (hmem c r hcr).1
    have hlt : c < st.nextChan :=
      hb (req.method, handlers) (mapLookup_mem st.eventHandlers req.method handlers h)
        c hch
    have hreg : (registerEventHandler (Handle cancelled st req).2 req.method).1 =
        (Handle cancelled st req).2.nextChan := by
      rw [registerEventHandler]
      cases mapLookup (Handle cancelled st req).2.eventHandlers req.method <;> rfl
    have hnext : (Handle cancelled st req).2.nextChan = st.nextChan := by
      rw [Handle, h]
    rw [hreg, hnext]
    omega

/-- Witness for claim C4: two registered listeners, no cancellation. -/
theorem Handle_broadcast_and_clear_witness :
    mapLookup sampleHandlerState.eventHandlers sampleRequest.method = some [0, 1] ∧
    (((∀ _i : Nat, (false : Bool) = false) →
      (Handle (fun _ => false) sampleHandlerState sampleRequest).1 =
        [0, 1].map fun c => (c, sampleRequest))
    ∧ mapLookup (Handle (fun _ => false) sampleHandlerState sampleRequest).2.eventHandlers
        sampleRequest.method = some []
    ∧ (Handle (fun _ => false) sampleHandlerState sampleRequest).2.nextChan =
        sampleHandlerState.nextChan
    ∧ (∀ c r, (c, r) ∈ (Handle (fun _ => false) sampleHandlerState sampleRequest).1 →
        c ∈ [0, 1] ∧ r = sampleRequest)
    ∧ (chanBound sampleHandlerState →
        ∀ c r, (c, r) ∈ (Handle (fun _ => false) sampleHandlerState sampleRequest).1 →
          c ≠ (registerEventHandler
                (Handle (fun _ => false) sampleHandlerState sampleRequest).2
                sampleRequest.method).1)) :=
  ⟨by decide,
   Handle_broadcast_and_clear (fun _ => false) sampleHandlerState sampleRequest
     [0, 1] (by decide)⟩

/-- Claim C9: a notification for a method with no currently registered
listener is dropped entirely — nothing is delivered and the handler state
is unchanged, so no buffer or queue records it — and a listener
registered after the arrival receives nothing from it. -/
theorem Handle_drops_unregistered (cancelled : Nat → Bool) (st : RpcState)
    (req : Request)
    (h : mapLookup st.eventHandlers req.method = none ∨
         mapLookup st.eventHandlers req.method = some []) :
    Handle cancelled st req = ([], st)
    ∧ (∀ r, ((registerEventHandler st req.method).1, r) ∉
        (Handle cancelled st req).1) := by
  have hmain : Handle cancelled st req = ([], st) := by
    cases h with
    | inl h => rw [Handle, h]
    | inr h =>
      rw [Handle, h, mapSet_lookup_self st.eventHandlers req.method [] h]
      simp
  refine ⟨hmain, fun r hr => ?_⟩
  rw [hmain] at hr
  cases hr

/-- Witness for claim C9: a sharingSucceeded frame arriving at a fresh
handler with no registrations. -/
theorem Handle_drops_unregistered_witness :
    (mapLookup newRPCHandler.eventHandlers sampleRequest.method = none ∨
     mapLookup newRPCHandler.eventHandlers sampleRequest.method = some []) ∧
    (Handle (fun _ => false) newRPCHandler sampleRequest = ([], newRPCHandler)
    ∧ (∀ r, ((registerEventHandler newRPCHandler sampleRequest.method).1, r) ∉
        (Handle (fun _ => false) newRPCHandler sampleRequest).1)) :=
  ⟨Or.inl rfl,
   Handle_drops_unregistered (fun _ => false) newRPCHandler sampleRequest
     (Or.inl rfl)⟩
